import Mathlib

/-!
Shallow embedding of `server/server.py` (the JudgeServer orchestration layer):
the workspace manager `InitSubmissionEnv`, the orchestrator `JudgeServer.judge`,
the special-judge compile entry point `JudgeServer.compile_spj`, and the Flask
request dispatcher `server`.

Modelling conventions:
* The filesystem is an association list from absolute path strings to entries
  carrying mode / owner / group / directory-flag.  File contents are not
  tracked (no claim inspects them).
* OS-level and collaborator outcomes that the Python code can observe as
  exceptions or return values (mkdir/chown/chmod/rmtree success, the Compiler
  collaborator outcome, the JudgeClient run outcome, the generated uuid) are
  supplied by an `Oracle` record, so one run of a function is one concrete
  execution of the Python code under those outcomes.
* Every invocation of the Compiler collaborator is recorded in an event trace,
  together with mkdir / file-write / rmtree events, so that "how many times was
  the compiler invoked" and "what happened before what" are stateable.
* Python exceptions are an inductive error type propagated through `Except`;
  state changes made before a raise are kept (as in Python).
-/

namespace JudgeSrv

/-- A filesystem entry: permission mode bits, owner uid, group gid, directory flag. -/
structure FileEntry where
  mode : Nat
  owner : Nat
  group : Nat
  isDir : Bool
deriving DecidableEq, Repr

/-- Events recorded while the server runs.  `compilerInvoke` is one invocation of
the external Compiler collaborator (`Compiler().compile`). -/
inductive Ev
  | mkdir (path : String)
  | writeFile (path : String)
  | compilerInvoke (srcPath : String) (outputDir : String)
  | rmtree (path : String)
deriving DecidableEq, Repr

/-- The mutable world: filesystem plus the recorded event trace. -/
structure St where
  fs : List (String × FileEntry)
  events : List Ev
deriving DecidableEq, Repr

/-- Python exceptions thrown by `server.py` and its collaborators
(`exception.py` itself is not part of the embedded core: each constructor is one
of the exception classes the dispatcher distinguishes, plus `TypeError` for
Python-level call errors such as missing required arguments). -/
inductive PyErr
  | TokenVerificationFailed (message : String)
  | CompileError (message : String)
  | SPJCompileError (message : String)
  | JudgeClientError (message : String)
  | TypeError (message : String)
deriving DecidableEq, Repr

deriving instance DecidableEq for Except

/-- Outcomes of the operations whose success the Python code cannot control:
OS calls in the workspace manager and the two external collaborators. -/
structure Oracle where
  mkdirOk : Bool
  chownOk : Bool
  chmodOk : Bool
  rmtreeOk : Bool
  /-- Compiler collaborator outcome when compiling a special-judge checker. -/
  spjCompile : Except String Unit
  /-- Compiler collaborator outcome when compiling the submission source. -/
  submissionCompile : Except String Unit
  /-- Outcome of `JudgeClient(...).run()` (an abstract run result, or a raised error). -/
  runResult : Except PyErr Nat
  /-- The hex of `uuid.uuid4()` generated for this request. -/
  freshId : String
deriving DecidableEq, Repr

/-- Modelled from the spec: the configured base directory for ephemeral
workspaces (`config.JUDGER_WORKSPACE_BASE`; `config.py` is not in the embedded
sources, only its names are imported by `server.py`). -/
def JUDGER_WORKSPACE_BASE : String := "/judger/run"

/-- Modelled from the spec: the configured base directory for special-judge
sources (`config.SPJ_SRC_DIR`). -/
def SPJ_SRC_DIR : String := "/judger/spj_src"

/-- Modelled from the spec: the configured base directory for special-judge
executables (`config.SPJ_EXE_DIR`). -/
def SPJ_EXE_DIR : String := "/judger/spj_exe"

/-- Modelled from the spec: the configured numeric compiler group id
(`config.COMPILER_GROUP_GID`). -/
def COMPILER_GROUP_GID : Nat := 999

/-- Model of `os.path.join` for one extra component, as the code uses it. -/
def pathJoin (dir name : String) : String := dir ++ "/" ++ name

/-- Look a path up in the filesystem. -/
def lookupFs (fs : List (String × FileEntry)) (p : String) : Option FileEntry :=
  (fs.find? (fun kv => kv.1 == p)).map (fun kv => kv.2)

/-- Model of `os.path.exists`. -/
def pathExists (fs : List (String × FileEntry)) (p : String) : Bool :=
  (lookupFs fs p).isSome

/-- Model of `os.path.isfile`. -/
def isFile (fs : List (String × FileEntry)) (p : String) : Bool :=
  match lookupFs fs p with
  | some e => !e.isDir
  | none => false

/-- Create or overwrite the entry at `p`. -/
def setEntry (fs : List (String × FileEntry)) (p : String) (e : FileEntry) :
    List (String × FileEntry) :=
  (p, e) :: fs.filter (fun kv => kv.1 != p)

/-- Model of `os.chown p own grp` on an existing entry (no-op on a missing path). -/
def chownFs (fs : List (String × FileEntry)) (p : String) (own grp : Nat) :
    List (String × FileEntry) :=
  fs.map (fun kv => if kv.1 == p then (kv.1, { kv.2 with owner := own, group := grp }) else kv)

/-- Model of `os.chmod p m` on an existing entry (no-op on a missing path). -/
def chmodFs (fs : List (String × FileEntry)) (p : String) (m : Nat) :
    List (String × FileEntry) :=
  fs.map (fun kv => if kv.1 == p then (kv.1, { kv.2 with mode := m }) else kv)

/-- Model of `shutil.rmtree p`: drop the entry at `p` and everything below it. -/
def removeTree (fs : List (String × FileEntry)) (p : String) :
    List (String × FileEntry) :=
  fs.filter (fun kv => !(kv.1 == p || (p ++ "/").isPrefixOf kv.1))

/-- Replace every occurrence of `pat` in the subject by `repl`, left to right,
with structural fuel so that the kernel can evaluate it. -/
def replaceAllAux (pat repl : List Char) : Nat → List Char → List Char
  | _, [] => []
  | 0, l => l
  | fuel+1, c :: cs =>
    if pat.isPrefixOf (c :: cs) && !pat.isEmpty then
      repl ++ replaceAllAux pat repl fuel (cs.drop (pat.length - 1))
    else
      c :: replaceAllAux pat repl fuel cs

/-- Replace every occurrence of `pat` by `repl`. -/
def replaceAll (pat repl l : List Char) : List Char :=
  replaceAllAux pat repl l.length l

/-- Python `template.format(spj_version=v, test_case_id=t)` restricted to the two
keyword fields the code substitutes: each `\x7bspj_version\x7d` placeholder becomes `v`
and each `\x7btest_case_id\x7d` placeholder becomes `t`. -/
def formatName (template spj_version test_case_id : String) : String :=
  String.mk (replaceAll "\x7btest_case_id\x7d".data test_case_id.data
    (replaceAll "\x7bspj_version\x7d".data spj_version.data template.data))

/-- The `compile` sub-object of a language config: only the names `server.py`
reads are modelled. -/
structure CompileConfig where
  src_name : String
  exe_name : String
deriving DecidableEq, Repr

/-- The `run` sub-object of a language config. -/
structure RunConfig where
  exe_name : String
deriving DecidableEq, Repr

/-- A `language_config` request object: optional `compile` part, mandatory `run` part. -/
structure LanguageConfig where
  compile : Option CompileConfig
  run : RunConfig
deriving DecidableEq, Repr

/-- An `spj_config` request object (only `exe_name` is read by `server.py`). -/
structure SpjConfig where
  exe_name : String
deriving DecidableEq, Repr

/-- An `spj_compile_config` request dictionary: the two templated names the code
overwrites in place.  `compile_spj` returns the dictionary's final contents so
that the in-place mutation of the caller's object is observable. -/
structure SpjCompileConfig where
  src_name : String
  exe_name : String
deriving DecidableEq, Repr

/-- Modelled from the spec: the Compiler collaborator (`compiler.py` is outside
the embedded core).  Given a compile spec, a source path and an output
directory it either produces the executable `output_dir/exe_name` or fails with
a `CompileError` carrying the diagnostic; every call is recorded as a
`compilerInvoke` event. -/
def compilerCompile (outcome : Except String Unit) (exe_name src_path output_dir : String)
    (st : St) : Except PyErr String × St :=
  let st1 : St := { st with events := st.events ++ [Ev.compilerInvoke src_path output_dir] }
  match outcome with
  | .ok _ =>
    let exe_path := pathJoin output_dir exe_name
    (.ok exe_path, { st1 with fs := setEntry st1.fs exe_path (FileEntry.mk 0o755 0 0 false) })
  | .error msg => (.error (.CompileError msg), st1)

/-- Model of `InitSubmissionEnv.__enter__`: mkdir, chown to (0, COMPILER_GROUP_GID),
chmod 0o771; any failure is logged and re-raised as
`JudgeClientError("failed to create runtime dir")`.  `os.mkdir` itself fails if
the path already exists; other OS failures come from the oracle. -/
def initEnvEnter (o : Oracle) (path : String) (st : St) : Except PyErr String × St :=
  if !o.mkdirOk || pathExists st.fs path then
    (.error (.JudgeClientError "failed to create runtime dir"), st)
  else
    let st1 : St := { st with fs := setEntry st.fs path (FileEntry.mk 0o777 0 0 true),
                              events := st.events ++ [Ev.mkdir path] }
    if !o.chownOk then
      (.error (.JudgeClientError "failed to create runtime dir"), st1)
    else
      let st2 : St := { st1 with fs := chownFs st1.fs path 0 COMPILER_GROUP_GID }
      if !o.chmodOk then
        (.error (.JudgeClientError "failed to create runtime dir"), st2)
      else
        (.ok path, { st2 with fs := chmodFs st2.fs path 0o771 })

/-- Model of `InitSubmissionEnv.__exit__`: outside debug mode, `shutil.rmtree` the
workspace; a deletion failure is re-raised as
`JudgeClientError("failed to clean runtime dir")`. -/
def initEnvExit (o : Oracle) (debug : Bool) (path : String) (st : St) :
    Except PyErr Unit × St :=
  if debug then (.ok (), st)
  else if o.rmtreeOk then
    (.ok (), { st with fs := removeTree st.fs path, events := st.events ++ [Ev.rmtree path] })
  else
    (.error (.JudgeClientError "failed to clean runtime dir"), st)

/-- The tail of `JudgeServer.compile_spj` from the `try:` on: invoke the
Compiler collaborator with the cache store as output directory, chmod the
produced executable to 0o771, and turn a `CompileError` into an
`SPJCompileError` with the same message. -/
def compile_spjCompilePart (o : Oracle) (cfg : SpjCompileConfig) (spj_src_path : String)
    (st : St) : Except PyErr String × SpjCompileConfig × St :=
  match compilerCompile o.spjCompile cfg.exe_name spj_src_path SPJ_EXE_DIR st with
  | (.ok exe_path, st2) =>
    (.ok "success", cfg, { st2 with fs := chmodFs st2.fs exe_path 0o771 })
  | (.error e, st2) =>
    match e with
    | .CompileError m => (.error (.SPJCompileError m), cfg, st2)
    | e2 => (.error e2, cfg, st2)

/-- Model of `JudgeServer.compile_spj`.  The first two statements overwrite the
`src_name`/`exe_name` entries of the caller's `spj_compile_config` dictionary
with their template-substituted values; the returned `SpjCompileConfig` is the
dictionary's contents after the call (the in-place mutation).  If the resolved
source file is absent it is written (then chowned and chmodded to 0o660); the
compiler is then always invoked.  `src` is optional because `judge` may pass
`spj_src=None`; writing `None` raises a `TypeError` as in Python. -/
def compile_spj (o : Oracle) (spj_version : String) (src : Option String)
    (spj_compile_config : SpjCompileConfig) (test_case_id : String) (st : St) :
    Except PyErr String × SpjCompileConfig × St :=
  let cfg : SpjCompileConfig :=
    { src_name := formatName spj_compile_config.src_name spj_version test_case_id,
      exe_name := formatName spj_compile_config.exe_name spj_version test_case_id }
  let spj_src_path := pathJoin SPJ_SRC_DIR cfg.src_name
  if pathExists st.fs spj_src_path then
    compile_spjCompilePart o cfg spj_src_path st
  else
    match src with
    | none => (.error (.TypeError "write() argument must be str, not None"), cfg, st)
    | some _ =>
      let st1 : St := { st with fs := setEntry st.fs spj_src_path (FileEntry.mk 0o644 0 0 false),
                                events := st.events ++ [Ev.writeFile spj_src_path] }
      let st2 : St := { st1 with fs := chownFs st1.fs spj_src_path 0 COMPILER_GROUP_GID }
      let st3 : St := { st2 with fs := chmodFs st2.fs spj_src_path 0o660 }
      compile_spjCompilePart o cfg spj_src_path st3

/-- Sequence a step that may raise with its continuation: on a raise, propagate
the error together with the state the step left behind (no rollback, as in
Python). -/
def bindStep {α β : Type} (x : Except PyErr α × St) (f : α → St → Except PyErr β × St) :
    Except PyErr β × St :=
  match x with
  | (.error e, st) => (.error e, st)
  | (.ok a, st) => f a st

/-- Model of `JudgeClient(...).run()`, the Execution Engine collaborator: outcome from
the oracle. -/
def runClient (o : Oracle) (st : St) : Except PyErr Nat × St :=
  match o.runResult with
  | .ok n => (.ok n, st)
  | .error e => (.error e, st)

/-- The body of the `with InitSubmissionEnv(...)` block in `judge`: write the
source (under the compile spec's `src_name` and invoke the Compiler, or
directly under the run spec's `exe_name` for interpreted languages), then run
the judge client. -/
def judgeBody (o : Oracle) (compile_config : Option CompileConfig) (run_config : RunConfig)
    (src : String) (submission_dir : String) (st : St) : Except PyErr Nat × St :=
  match compile_config with
  | some cc =>
    let src_path := pathJoin submission_dir cc.src_name
    let st1 : St := { st with fs := setEntry st.fs src_path (FileEntry.mk 0o644 0 0 false),
                              events := st.events ++ [Ev.writeFile src_path] }
    bindStep (compilerCompile o.submissionCompile cc.exe_name src_path submission_dir st1)
      (fun _exe_path st2 => runClient o st2)
  | none =>
    let exe_path := pathJoin submission_dir run_config.exe_name
    let st1 : St := { st with fs := setEntry st.fs exe_path (FileEntry.mk 0o644 0 0 false),
                              events := st.events ++ [Ev.writeFile exe_path] }
    runClient o st1

/-- The `cls.compile_spj(...)` call inside `judge`'s prologue: `judge` discards
the returned value (and the mutated config), keeping only the state and any
raised error. -/
def judgeSpjCompileCall (o : Oracle) (v : String) (cc : SpjCompileConfig)
    (spj_src : Option String) (test_case_id : String) (st : St) : Except PyErr Unit × St :=
  match compile_spj o v spj_src cc test_case_id st with
  | (.ok _, _, st1) => (.ok (), st1)
  | (.error e, _, st1) => (.error e, st1)

/-- The `spj_version and spj_config` prologue of `judge` (lines 60-70): resolve
the expected checker executable from `spj_config["exe_name"]`; when it is not a
file, call `compile_spj` (subscripting a `None` `spj_compile_config` raises a
`TypeError`, as the Python line 104 would).  Python truthiness: an empty
`spj_version` string is falsy. -/
def judgeSpjCheck (o : Oracle) (v : String) (sc : SpjConfig)
    (spj_compile_config : Option SpjCompileConfig) (spj_src : Option String)
    (test_case_id : String) (st : St) : Except PyErr Unit × St :=
  if v = "" then (.ok (), st)
  else if isFile st.fs (pathJoin SPJ_EXE_DIR (formatName sc.exe_name v test_case_id)) then
    (.ok (), st)
  else
    match spj_compile_config with
    | none => (.error (.TypeError "argument of type NoneType is not subscriptable"), st)
    | some cc => judgeSpjCompileCall o v cc spj_src test_case_id st

/-- Dispatch on the Python truthiness of `spj_version and spj_config`: the body
runs only when both are supplied (and the version string nonempty). -/
def judgeSpjStep (o : Oracle) (spj_version : Option String) (spj_config : Option SpjConfig)
    (spj_compile_config : Option SpjCompileConfig) (spj_src : Option String)
    (test_case_id : String) (st : St) : Except PyErr Unit × St :=
  match spj_version, spj_config with
  | some v, some sc => judgeSpjCheck o v sc spj_compile_config spj_src test_case_id st
  | _, _ => (.ok (), st)

/-- The part of the `with InitSubmissionEnv(...)` statement after a successful
`__enter__`: run the body, then `__exit__`; an error raised by `__exit__`
replaces the body's outcome, exactly as a Python `with` behaves when `__exit__`
raises during unwinding. -/
def judgeWithExit (o : Oracle) (debug : Bool) (compile_config : Option CompileConfig)
    (run_config : RunConfig) (src : String) (submission_dir : String) (st2 : St) :
    Except PyErr Nat × St :=
  let body := judgeBody o compile_config run_config src submission_dir st2
  match initEnvExit o debug submission_dir body.2 with
  | (.error e2, st4) => (.error e2, st4)
  | (.ok _, st4) => (body.1, st4)

/-- The whole `with InitSubmissionEnv(...)` statement of `judge`: `__enter__`
(on failure the error propagates and `__exit__` never runs), then the body and
`__exit__`. -/
def judgeRest (o : Oracle) (debug : Bool) (compile_config : Option CompileConfig)
    (run_config : RunConfig) (src : String) (submission_path : String) (st : St) :
    Except PyErr Nat × St :=
  bindStep (initEnvEnter o submission_path st) (judgeWithExit o debug compile_config run_config src)

/-- Model of `JudgeServer.judge`.  `max_cpu_time`, `max_memory` and `output` are passed
through to the JudgeClient collaborator, whose outcome the oracle supplies. -/
def judge (o : Oracle) (debug : Bool) (language_config : LanguageConfig) (src : String)
    (max_cpu_time max_memory : Nat) (test_case_id : String)
    (spj_version : Option String) (spj_config : Option SpjConfig)
    (spj_compile_config : Option SpjCompileConfig) (spj_src : Option String)
    (output : Bool) (st : St) : Except PyErr Nat × St :=
  let compile_config := language_config.compile
  let run_config := language_config.run
  let submission_id := o.freshId
  let _ := (max_cpu_time, max_memory, output)
  bindStep (judgeSpjStep o spj_version spj_config spj_compile_config spj_src test_case_id st)
    (fun _ st1 =>
      judgeRest o debug compile_config run_config src
        (pathJoin JUDGER_WORKSPACE_BASE submission_id) st1)

/-- What a response's `data` field can hold. -/
inductive RespData
  | str (s : String)
  | runRes (n : Nat)
  | pong
deriving DecidableEq, Repr

/-- The uniform `\x7berr, data\x7d` response envelope. -/
structure Envelope where
  err : Option String
  data : RespData
deriving DecidableEq, Repr

/-- The two `except` clauses of `server`: the four named exception classes are
reported under their class name with `e.message`; anything else (here:
`TypeError`) falls to the generic clause reporting
`\x7b"err": "JudgeClientError", "data": e.__class__.__name__ + " :" + str(e)\x7d`. -/
def envelopeOfErr : PyErr → Envelope
  | .TokenVerificationFailed m => { err := some "TokenVerificationFailed", data := .str m }
  | .CompileError m => { err := some "CompileError", data := .str m }
  | .SPJCompileError m => { err := some "SPJCompileError", data := .str m }
  | .JudgeClientError m => { err := some "JudgeClientError", data := .str m }
  | .TypeError m => { err := some "JudgeClientError", data := .str ("TypeError :" ++ m) }

/-- The decoded keyword arguments of a request body; a field that is absent
from the JSON object is `none`.  `output` defaults to `False` in `judge`'s
signature. -/
structure Params where
  language_config : Option LanguageConfig
  src : Option String
  max_cpu_time : Option Nat
  max_memory : Option Nat
  test_case_id : Option String
  spj_version : Option String
  spj_config : Option SpjConfig
  spj_compile_config : Option SpjCompileConfig
  spj_src : Option String
  output : Bool
deriving DecidableEq, Repr

/-- The empty parameter set (`data = \x7b\x7d` after a failed `request.json`). -/
def emptyParams : Params :=
  { language_config := none, src := none, max_cpu_time := none, max_memory := none,
    test_case_id := none, spj_version := none, spj_config := none,
    spj_compile_config := none, spj_src := none, output := false }

/-- Stand-in for Python's `TypeError` text when `judge(**data)` lacks required
positional arguments. -/
def judgeMissingArgsMsg : String := "judge() missing required positional arguments"

/-- Stand-in for Python's `TypeError` text when `compile_spj(**data)` lacks
required positional arguments. -/
def compileSpjMissingArgsMsg : String := "compile_spj() missing required positional arguments"

/-- An incoming HTTP request: final path segment, `X-Judge-Server-Token` header,
and the decoded JSON body (`none` when `request.json` raises, i.e. the body is
malformed or absent). -/
structure Request where
  path : String
  tokenHeader : Option String
  body : Option Params
deriving DecidableEq, Repr

/-- Model of `getattr(JudgeServer, path)(**data)` for the three recognized operations.
Calling `judge` or `compile_spj` without one of its required keyword arguments
raises a `TypeError`, as Python's calling convention does; `ping` takes no
arguments and reports `server_info()` plus the `"pong"` marker. -/
def callHandler (o : Oracle) (debug : Bool) (path : String) (p : Params) (st : St) :
    Except PyErr RespData × St :=
  if path = "ping" then (.ok .pong, st)
  else if path = "judge" then
    match p.language_config, p.src, p.max_cpu_time, p.max_memory, p.test_case_id with
    | some lc, some s, some mct, some mm, some tcid =>
      match judge o debug lc s mct mm tcid p.spj_version p.spj_config
          p.spj_compile_config p.spj_src p.output st with
      | (.ok n, st2) => (.ok (.runRes n), st2)
      | (.error e, st2) => (.error e, st2)
    | _, _, _, _, _ => (.error (.TypeError judgeMissingArgsMsg), st)
  else
    match p.spj_version, p.src, p.spj_compile_config, p.test_case_id with
    | some v, some s, some cc, some tcid =>
      match compile_spj o v (some s) cc tcid st with
      | (.ok r, _, st2) => (.ok (.str r), st2)
      | (.error e, _, st2) => (.error e, st2)
    | _, _, _, _ => (.error (.TypeError compileSpjMissingArgsMsg), st)

/-- The Flask view function `server`: unrecognized paths get the fixed
`InvalidRequest`/`"404"` envelope; recognized ones check the shared-secret
token first (mismatch or absence raises `TokenVerificationFailed("invalid
token")`, caught into its envelope before anything else runs), decode the body
(malformed means `\x7b\x7d`), dispatch, and wrap result or error into the envelope. -/
def server (o : Oracle) (debug : Bool) (tokenCfg : String) (req : Request) (st : St) :
    Envelope × St :=
  if req.path = "judge" ∨ req.path = "ping" ∨ req.path = "compile_spj" then
    if req.tokenHeader ≠ some tokenCfg then
      (envelopeOfErr (PyErr.TokenVerificationFailed "invalid token"), st)
    else
      let data := req.body.getD emptyParams
      match callHandler o debug req.path data st with
      | (.ok d, st2) => ({ err := none, data := d }, st2)
      | (.error e, st2) => (envelopeOfErr e, st2)
  else
    ({ err := some "InvalidRequest", data := .str "404" }, st)

/-- An all-successful oracle used by concrete scenarios. -/
def oracle0 : Oracle :=
  { mkdirOk := true, chownOk := true, chmodOk := true, rmtreeOk := true,
    spjCompile := .ok (), submissionCompile := .ok (), runResult := .ok 0,
    freshId := "a1b2c3" }

/-- The empty initial world. -/
def st0 : St := { fs := [], events := [] }

/-- A concrete checker compile config with both placeholders in play. -/
def cfg0 : SpjCompileConfig :=
  { src_name := "spj-\x7bspj_version\x7d.c", exe_name := "spj-\x7bspj_version\x7d" }

/-! ### Filesystem lemmas -/

theorem find?_map_keypres (g : String × FileEntry → String × FileEntry)
    (hg : ∀ kv, (g kv).1 = kv.1) (q : String) (fs : List (String × FileEntry)) :
    (fs.map g).find? (fun kv => kv.1 == q) = (fs.find? (fun kv => kv.1 == q)).map g := by
  induction fs with
  | nil => rfl
  | cons kv t ih =>
    simp only [List.map_cons, List.find?_cons, hg kv]
    cases hq : (kv.1 == q) with
    | true => simp
    | false => simpa using ih

theorem chown_keypres (p : String) (ow gr : Nat) : ∀ kv : String × FileEntry,
    ((if kv.1 == p then (kv.1, { kv.2 with owner := ow, group := gr }) else kv) :
      String × FileEntry).1 = kv.1 := by
  intro kv
  split <;> rfl

theorem chmod_keypres (p : String) (m : Nat) : ∀ kv : String × FileEntry,
    ((if kv.1 == p then (kv.1, { kv.2 with mode := m }) else kv) :
      String × FileEntry).1 = kv.1 := by
  intro kv
  split <;> rfl

theorem lookupFs_chownFs_self (fs : List (String × FileEntry)) (p : String) (ow gr : Nat) :
    lookupFs (chownFs fs p ow gr) p
      = (lookupFs fs p).map (fun e => { e with owner := ow, group := gr }) := by
  unfold lookupFs chownFs
  rw [find?_map_keypres _ (chown_keypres p ow gr)]
  cases hfind : fs.find? (fun kv => kv.1 == p) with
  | none => rfl
  | some kv =>
    have hpred : (kv.1 == p) = true := by
      have h0 := List.find?_some hfind
      exact h0
    simp only [Option.map_some']
    rw [if_pos hpred]

theorem lookupFs_chmodFs_self (fs : List (String × FileEntry)) (p : String) (m : Nat) :
    lookupFs (chmodFs fs p m) p = (lookupFs fs p).map (fun e => { e with mode := m }) := by
  unfold lookupFs chmodFs
  rw [find?_map_keypres _ (chmod_keypres p m)]
  cases hfind : fs.find? (fun kv => kv.1 == p) with
  | none => rfl
  | some kv =>
    have hpred : (kv.1 == p) = true := by
      have h0 := List.find?_some hfind
      exact h0
    simp only [Option.map_some']
    rw [if_pos hpred]

theorem pathExists_chownFs (fs : List (String × FileEntry)) (p q : String) (ow gr : Nat) :
    pathExists (chownFs fs p ow gr) q = pathExists fs q := by
  unfold pathExists lookupFs chownFs
  rw [find?_map_keypres _ (chown_keypres p ow gr)]
  cases fs.find? (fun kv => kv.1 == q) <;> rfl

theorem pathExists_chmodFs (fs : List (String × FileEntry)) (p q : String) (m : Nat) :
    pathExists (chmodFs fs p m) q = pathExists fs q := by
  unfold pathExists lookupFs chmodFs
  rw [find?_map_keypres _ (chmod_keypres p m)]
  cases fs.find? (fun kv => kv.1 == q) <;> rfl

theorem find?_filter_key_ne (fs : List (String × FileEntry)) (p q : String) (h : q ≠ p) :
    (fs.filter (fun kv => kv.1 != p)).find? (fun kv => kv.1 == q)
      = fs.find? (fun kv => kv.1 == q) := by
  induction fs with
  | nil => rfl
  | cons kv t ih =>
    simp only [List.filter_cons]
    by_cases hkp : kv.1 = p
    · have h1 : (kv.1 != p) = false := by simp [hkp]
      have h2 : (kv.1 == q) = false := by
        rw [hkp, beq_eq_false_iff_ne]
        exact fun hqq => h hqq.symm
      rw [h1, if_neg (by simp), List.find?_cons, h2, ih]
    · have h1 : (kv.1 != p) = true := by simp [hkp]
      rw [h1, if_pos rfl]
      simp only [List.find?_cons]
      cases hkq : (kv.1 == q) with
      | true => rfl
      | false => exact ih

theorem lookupFs_setEntry (fs : List (String × FileEntry)) (p q : String) (e : FileEntry) :
    lookupFs (setEntry fs p e) q = if q = p then some e else lookupFs fs q := by
  by_cases h : q = p
  · subst h
    simp [lookupFs, setEntry, List.find?_cons]
  · rw [if_neg h]
    unfold lookupFs setEntry
    simp only [List.find?_cons]
    have h2 : ((p, e).1 == q) = false := by
      simp only [beq_eq_false_iff_ne]
      exact fun hpq => h hpq.symm
    rw [h2, find?_filter_key_ne fs p q h]

theorem pathExists_setEntry (fs : List (String × FileEntry)) (p q : String) (e : FileEntry) :
    pathExists (setEntry fs p e) q = true ↔ (q = p ∨ pathExists fs q = true) := by
  by_cases h : q = p
  · simp [pathExists, lookupFs_setEntry, h]
  · simp [pathExists, lookupFs_setEntry, h]

theorem pathExists_removeTree_self (fs : List (String × FileEntry)) (p : String) :
    pathExists (removeTree fs p) p = false := by
  simp only [pathExists, lookupFs, removeTree]
  cases hfind : (fs.filter
      (fun kv => !(kv.1 == p || (p ++ "/").isPrefixOf kv.1))).find? (fun kv => kv.1 == p) with
  | none => simp
  | some kv =>
    have hpred : (kv.1 == p) = true := by
      have h0 := List.find?_some hfind
      exact h0
    have hmem := List.mem_of_find?_eq_some hfind
    have hkeep : (!(kv.1 == p || (p ++ "/").isPrefixOf kv.1)) = true :=
      (List.mem_filter.mp hmem).2
    rw [hpred] at hkeep
    simp at hkeep

/-! ### Path disjointness: workspace paths vs cache-store paths -/

theorem string_append_ne (a b x y : String) (i : Nat) (ca cb : Char)
    (hia : i < a.data.length) (hib : i < b.data.length)
    (ha : a.data[i]? = some ca) (hb : b.data[i]? = some cb) (hne : ca ≠ cb) :
    a ++ x ≠ b ++ y := by
  intro h
  have hd : a.data ++ x.data = b.data ++ y.data := by
    rw [← String.data_append a x, ← String.data_append b y, h]
  have h1 : (a.data ++ x.data)[i]? = (b.data ++ y.data)[i]? := by rw [hd]
  rw [List.getElem?_append_left hia, List.getElem?_append_left hib, ha, hb] at h1
  exact hne (Option.some.inj h1)

theorem ws_ne_spj_src_join (x y : String) :
    pathJoin JUDGER_WORKSPACE_BASE x ≠ pathJoin SPJ_SRC_DIR y := by
  show (JUDGER_WORKSPACE_BASE ++ "/") ++ x ≠ (SPJ_SRC_DIR ++ "/") ++ y
  exact string_append_ne _ _ _ _ 8 'r' 's' (by decide) (by decide) (by decide) (by decide)
    (by decide)

theorem ws_ne_spj_exe_join (x y : String) :
    pathJoin JUDGER_WORKSPACE_BASE x ≠ pathJoin SPJ_EXE_DIR y := by
  show (JUDGER_WORKSPACE_BASE ++ "/") ++ x ≠ (SPJ_EXE_DIR ++ "/") ++ y
  exact string_append_ne _ _ _ _ 8 'r' 's' (by decide) (by decide) (by decide) (by decide)
    (by decide)

theorem ws_ne_SPJ_EXE_DIR (x : String) : pathJoin JUDGER_WORKSPACE_BASE x ≠ SPJ_EXE_DIR := by
  intro h
  have h2 : (JUDGER_WORKSPACE_BASE ++ "/") ++ x = SPJ_EXE_DIR ++ "" := by
    rw [show SPJ_EXE_DIR ++ "" = SPJ_EXE_DIR from rfl]
    exact h
  exact string_append_ne _ _ _ _ 8 'r' 's' (by decide) (by decide) (by decide) (by decide)
    (by decide) h2

/-! ### Event-trace helpers -/

/-- Is this event a workspace-directory creation? -/
def isMkdir : Ev → Bool
  | .mkdir _ => true
  | _ => false

/-- Is this event a Compiler invocation with the given output directory? -/
def isInvokeTo (d : String) : Ev → Bool
  | .compilerInvoke _ d2 => d2 == d
  | _ => false

/-- Is this event a Compiler invocation that compiles into the special-judge
cache store (a checker compilation)? -/
def isSpjInvoke (e : Ev) : Bool := isInvokeTo SPJ_EXE_DIR e

/-- Number of Compiler invocations whose output directory is `d`. -/
def countCompilesTo (d : String) (evs : List Ev) : Nat := evs.countP (isInvokeTo d)

theorem any_takeWhile_append (p q : Ev → Bool) (l1 l2 : List Ev)
    (h1 : l1.all p = true) (h2 : l1.any q = true) :
    ((l1 ++ l2).takeWhile p).any q = true := by
  induction l1 with
  | nil => simp at h2
  | cons a t ih =>
    rw [List.all_cons, Bool.and_eq_true] at h1
    rw [List.any_cons, Bool.or_eq_true] at h2
    simp only [List.cons_append, List.takeWhile_cons, h1.1, if_true, List.any_cons]
    cases h2 with
    | inl h => rw [h, Bool.true_or]
    | inr h => rw [ih h1.2 h, Bool.or_true]

/-- Holds when `st2` extends `st` by events none of which is a checker compilation. -/
def extendsNonSpj (st st2 : St) : Prop :=
  ∃ tl : List Ev, st2.events = st.events ++ tl ∧ tl.all (fun e => !(isSpjInvoke e)) = true

theorem extendsNonSpj_refl (st : St) : extendsNonSpj st st := ⟨[], by simp⟩

theorem extendsNonSpj_trans {s t u : St} (h1 : extendsNonSpj s t) (h2 : extendsNonSpj t u) :
    extendsNonSpj s u := by
  obtain ⟨a, ha, halla⟩ := h1
  obtain ⟨b, hb, hallb⟩ := h2
  refine ⟨a ++ b, ?_, ?_⟩
  · rw [hb, ha, List.append_assoc]
  · rw [List.all_append, halla, hallb]
    rfl

theorem countCompilesTo_of_extendsNonSpj {st st' : St} (h : extendsNonSpj st st') :
    countCompilesTo SPJ_EXE_DIR st'.events = countCompilesTo SPJ_EXE_DIR st.events := by
  obtain ⟨tl, htl, hall⟩ := h
  rw [countCompilesTo, htl, List.countP_append]
  have hzero : tl.countP (isInvokeTo SPJ_EXE_DIR) = 0 := by
    rw [List.countP_eq_zero]
    intro e he
    have := (List.all_eq_true.mp hall) e he
    simpa [isSpjInvoke] using this
  rw [hzero]
  rfl

/-! ### Per-operation trace and filesystem characterizations -/

theorem initEnvEnter_nonspj (o : Oracle) (p : String) (st : St) :
    extendsNonSpj st (initEnvEnter o p st).2 := by
  unfold initEnvEnter
  split
  · exact extendsNonSpj_refl st
  · split
    · exact ⟨[Ev.mkdir p], rfl, by simp [isSpjInvoke, isInvokeTo]⟩
    · split
      · exact ⟨[Ev.mkdir p], rfl, by simp [isSpjInvoke, isInvokeTo]⟩
      · exact ⟨[Ev.mkdir p], rfl, by simp [isSpjInvoke, isInvokeTo]⟩

theorem initEnvExit_nonspj (o : Oracle) (debug : Bool) (p : String) (st : St) :
    extendsNonSpj st (initEnvExit o debug p st).2 := by
  unfold initEnvExit
  split
  · exact extendsNonSpj_refl st
  · split
    · exact ⟨[Ev.rmtree p], rfl, by simp [isSpjInvoke, isInvokeTo]⟩
    · exact extendsNonSpj_refl st

theorem runClient_nonspj (o : Oracle) (st : St) : extendsNonSpj st (runClient o st).2 := by
  unfold runClient
  split <;> exact extendsNonSpj_refl st

theorem compilerCompile_nonspj (outcome : Except String Unit) (en sp outdir : String) (st : St)
    (hne : (outdir == SPJ_EXE_DIR) = false) :
    extendsNonSpj st (compilerCompile outcome en sp outdir st).2 := by
  unfold compilerCompile
  cases outcome with
  | ok u =>
    exact ⟨[Ev.compilerInvoke sp outdir], rfl, by simp [isSpjInvoke, isInvokeTo, hne]⟩
  | error m =>
    exact ⟨[Ev.compilerInvoke sp outdir], rfl, by simp [isSpjInvoke, isInvokeTo, hne]⟩

theorem bindStep_nonspj {α β : Type} (r : Except PyErr α) (stx : St)
    (f : α → St → Except PyErr β × St) (st : St) (hx : extendsNonSpj st stx)
    (hf : ∀ a, r = .ok a → extendsNonSpj stx (f a stx).2) :
    extendsNonSpj st (bindStep (r, stx) f).2 := by
  cases r with
  | error e => exact hx
  | ok a => exact extendsNonSpj_trans hx (hf a rfl)

theorem judgeBody_nonspj (o : Oracle) (cc : Option CompileConfig) (rc : RunConfig)
    (src submission_dir : String) (st : St)
    (hne : (submission_dir == SPJ_EXE_DIR) = false) :
    extendsNonSpj st (judgeBody o cc rc src submission_dir st).2 := by
  unfold judgeBody
  cases cc with
  | none =>
    refine extendsNonSpj_trans ?_ (runClient_nonspj o _)
    exact ⟨[Ev.writeFile (pathJoin submission_dir rc.exe_name)], rfl,
      by simp [isSpjInvoke, isInvokeTo]⟩
  | some c =>
    dsimp only
    rcases hcc : compilerCompile o.submissionCompile c.exe_name
        (pathJoin submission_dir c.src_name) submission_dir
        { st with
            fs := setEntry st.fs (pathJoin submission_dir c.src_name) (FileEntry.mk 0o644 0 0 false),
            events := st.events ++ [Ev.writeFile (pathJoin submission_dir c.src_name)] }
      with ⟨rco, stco⟩
    refine bindStep_nonspj rco stco _ st ?_ ?_
    · refine extendsNonSpj_trans (t :=
        { st with
            fs := setEntry st.fs (pathJoin submission_dir c.src_name) (FileEntry.mk 0o644 0 0 false),
            events := st.events ++ [Ev.writeFile (pathJoin submission_dir c.src_name)] }) ?_ ?_
      · exact ⟨[Ev.writeFile (pathJoin submission_dir c.src_name)], rfl,
          by simp [isSpjInvoke, isInvokeTo]⟩
      · have := compilerCompile_nonspj o.submissionCompile c.exe_name
          (pathJoin submission_dir c.src_name) submission_dir
          { st with
              fs := setEntry st.fs (pathJoin submission_dir c.src_name)
                (FileEntry.mk 0o644 0 0 false),
              events := st.events ++ [Ev.writeFile (pathJoin submission_dir c.src_name)] }
          hne
        rw [hcc] at this
        exact this
    · intro a ha
      exact runClient_nonspj o stco

theorem initEnvEnter_ok_value (o : Oracle) (p : String) (st : St) (a : String)
    (h : (initEnvEnter o p st).1 = .ok a) : a = p := by
  unfold initEnvEnter at h
  split at h
  · exact absurd h (by simp)
  · split at h
    · exact absurd h (by simp)
    · split at h
      · exact absurd h (by simp)
      · simp at h
        exact h.symm

theorem judgeWithExit_nonspj (o : Oracle) (debug : Bool) (cc : Option CompileConfig)
    (rc : RunConfig) (src d : String) (st2 : St)
    (hne : (d == SPJ_EXE_DIR) = false) :
    extendsNonSpj st2 (judgeWithExit o debug cc rc src d st2).2 := by
  unfold judgeWithExit
  dsimp only
  rcases hb : judgeBody o cc rc src d st2 with ⟨r3, st3⟩
  dsimp only
  rcases hx2 : initEnvExit o debug d st3 with ⟨rx, st4⟩
  have hbody : extendsNonSpj st2 st3 := by
    have := judgeBody_nonspj o cc rc src d st2 hne
    rw [hb] at this
    exact this
  have hexit : extendsNonSpj st3 st4 := by
    have := initEnvExit_nonspj o debug d st3
    rw [hx2] at this
    exact this
  cases rx with
  | error e2 => exact extendsNonSpj_trans hbody hexit
  | ok u => exact extendsNonSpj_trans hbody hexit

theorem judgeRest_nonspj (o : Oracle) (debug : Bool) (cc : Option CompileConfig)
    (rc : RunConfig) (src wsp : String) (st : St)
    (hne : (wsp == SPJ_EXE_DIR) = false) :
    extendsNonSpj st (judgeRest o debug cc rc src wsp st).2 := by
  unfold judgeRest
  rcases he : initEnvEnter o wsp st with ⟨re, st2⟩
  refine bindStep_nonspj re st2 _ st ?_ ?_
  · have := initEnvEnter_nonspj o wsp st
    rw [he] at this
    exact this
  · intro a ha
    have hval : a = wsp := by
      refine initEnvEnter_ok_value o wsp st a ?_
      rw [he]
      exact ha
    subst hval
    exact judgeWithExit_nonspj o debug cc rc src a st2 hne

theorem judgeSpjCompileCall_state (o : Oracle) (v : String) (cc : SpjCompileConfig)
    (ssrc : Option String) (tcid : String) (st : St) :
    (judgeSpjCompileCall o v cc ssrc tcid st).2 = (compile_spj o v ssrc cc tcid st).2.2 := by
  unfold judgeSpjCompileCall
  rcases hcs : compile_spj o v ssrc cc tcid st with ⟨rc, cfg2, st1⟩
  cases rc with
  | ok r => rfl
  | error e => rfl

theorem compilePart_pathExists (o : Oracle) (cfg : SpjCompileConfig) (sp : String) (st : St)
    (p : String) (h : pathExists (compile_spjCompilePart o cfg sp st).2.2.fs p = true) :
    pathExists st.fs p = true ∨ ∃ x, p = pathJoin SPJ_EXE_DIR x := by
  unfold compile_spjCompilePart compilerCompile at h
  cases hoc : o.spjCompile with
  | ok u =>
    rw [hoc] at h
    dsimp only at h
    rw [pathExists_chmodFs] at h
    rcases (pathExists_setEntry _ _ _ _).mp h with he | ho
    · exact Or.inr ⟨cfg.exe_name, he⟩
    · exact Or.inl ho
  | error m =>
    rw [hoc] at h
    dsimp only at h
    exact Or.inl h

theorem compile_spj_pathExists (o : Oracle) (v : String) (src : Option String)
    (cfg : SpjCompileConfig) (tcid : String) (st : St) (p : String)
    (h : pathExists (compile_spj o v src cfg tcid st).2.2.fs p = true) :
    pathExists st.fs p = true ∨ (∃ x, p = pathJoin SPJ_SRC_DIR x)
      ∨ (∃ x, p = pathJoin SPJ_EXE_DIR x) := by
  unfold compile_spj at h
  by_cases hsrc :
      pathExists st.fs (pathJoin SPJ_SRC_DIR (formatName cfg.src_name v tcid)) = true
  · rw [if_pos hsrc] at h
    rcases compilePart_pathExists _ _ _ _ _ h with h1 | h2
    · exact Or.inl h1
    · exact Or.inr (Or.inr h2)
  · rw [if_neg hsrc] at h
    cases src with
    | none => exact Or.inl h
    | some s =>
      rcases compilePart_pathExists _ _ _ _ _ h with h1 | h2
      · rw [pathExists_chmodFs, pathExists_chownFs] at h1
        rcases (pathExists_setEntry _ _ _ _).mp h1 with he | ho
        · exact Or.inr (Or.inl ⟨formatName cfg.src_name v tcid, he⟩)
        · exact Or.inl ho
      · exact Or.inr (Or.inr h2)

theorem compile_spj_events (o : Oracle) (v s : String) (cfg : SpjCompileConfig)
    (tcid : String) (st : St) :
    ∃ tl : List Ev, (compile_spj o v (some s) cfg tcid st).2.2.events = st.events ++ tl
      ∧ tl.all (fun e => !(isMkdir e)) = true ∧ tl.any isSpjInvoke = true := by
  unfold compile_spj compile_spjCompilePart compilerCompile
  dsimp only
  by_cases hsrc :
      pathExists st.fs (pathJoin SPJ_SRC_DIR (formatName cfg.src_name v tcid)) = true
  · rw [if_pos hsrc]
    cases hoc : o.spjCompile with
    | ok u =>
      exact ⟨[Ev.compilerInvoke (pathJoin SPJ_SRC_DIR (formatName cfg.src_name v tcid))
        SPJ_EXE_DIR], rfl, by simp [isMkdir], by simp [isSpjInvoke, isInvokeTo]⟩
    | error m =>
      exact ⟨[Ev.compilerInvoke (pathJoin SPJ_SRC_DIR (formatName cfg.src_name v tcid))
        SPJ_EXE_DIR], rfl, by simp [isMkdir], by simp [isSpjInvoke, isInvokeTo]⟩
  · rw [if_neg hsrc]
    cases hoc : o.spjCompile with
    | ok u =>
      refine ⟨[Ev.writeFile (pathJoin SPJ_SRC_DIR (formatName cfg.src_name v tcid)),
        Ev.compilerInvoke (pathJoin SPJ_SRC_DIR (formatName cfg.src_name v tcid))
          SPJ_EXE_DIR], ?_, by simp [isMkdir], by simp [isSpjInvoke, isInvokeTo]⟩
      simp
    | error m =>
      refine ⟨[Ev.writeFile (pathJoin SPJ_SRC_DIR (formatName cfg.src_name v tcid)),
        Ev.compilerInvoke (pathJoin SPJ_SRC_DIR (formatName cfg.src_name v tcid))
          SPJ_EXE_DIR], ?_, by simp [isMkdir], by simp [isSpjInvoke, isInvokeTo]⟩
      simp

theorem judgeSpjStep_file_present (o : Oracle) (v : String) (sc : SpjConfig)
    (scc : Option SpjCompileConfig) (ssrc : Option String) (tcid : String) (st : St)
    (hv : ¬ v = "")
    (hfile : isFile st.fs (pathJoin SPJ_EXE_DIR (formatName sc.exe_name v tcid)) = true) :
    judgeSpjStep o (some v) (some sc) scc ssrc tcid st = (.ok (), st) := by
  rw [show judgeSpjStep o (some v) (some sc) scc ssrc tcid st
      = judgeSpjCheck o v sc scc ssrc tcid st from rfl]
  unfold judgeSpjCheck
  rw [if_neg hv, if_pos hfile]

theorem judgeSpjStep_pathExists (o : Oracle) (sv : Option String) (sc : Option SpjConfig)
    (scc : Option SpjCompileConfig) (ssrc : Option String) (tcid : String) (st : St)
    (p : String)
    (h : pathExists (judgeSpjStep o sv sc scc ssrc tcid st).2.fs p = true) :
    pathExists st.fs p = true ∨ (∃ x, p = pathJoin SPJ_SRC_DIR x)
      ∨ (∃ x, p = pathJoin SPJ_EXE_DIR x) := by
  cases sv with
  | none => exact Or.inl h
  | some v =>
    cases sc with
    | none => exact Or.inl h
    | some c =>
      have h2 : pathExists (judgeSpjCheck o v c scc ssrc tcid st).2.fs p = true := h
      unfold judgeSpjCheck at h2
      by_cases hv : v = ""
      · rw [if_pos hv] at h2
        exact Or.inl h2
      · rw [if_neg hv] at h2
        by_cases hfile :
            isFile st.fs (pathJoin SPJ_EXE_DIR (formatName c.exe_name v tcid)) = true
        · rw [if_pos hfile] at h2
          exact Or.inl h2
        · rw [if_neg hfile] at h2
          cases scc with
          | none => exact Or.inl h2
          | some cc =>
            have h3 : pathExists (judgeSpjCompileCall o v cc ssrc tcid st).2.fs p = true := h2
            rw [judgeSpjCompileCall_state] at h3
            exact compile_spj_pathExists o v ssrc cc tcid st p h3

theorem judgeSpjStep_events_absent (o : Oracle) (v : String) (sc : SpjConfig)
    (cc : SpjCompileConfig) (s tcid : String) (st : St) (hv : ¬ v = "")
    (hfile : isFile st.fs (pathJoin SPJ_EXE_DIR (formatName sc.exe_name v tcid)) = false) :
    ∃ tl : List Ev,
      (judgeSpjStep o (some v) (some sc) (some cc) (some s) tcid st).2.events
        = st.events ++ tl
      ∧ tl.all (fun e => !(isMkdir e)) = true ∧ tl.any isSpjInvoke = true := by
  rw [show judgeSpjStep o (some v) (some sc) (some cc) (some s) tcid st
      = judgeSpjCheck o v sc (some cc) (some s) tcid st from rfl]
  unfold judgeSpjCheck
  rw [if_neg hv, if_neg (by rw [hfile]; exact Bool.false_ne_true)]
  show ∃ tl : List Ev,
    (judgeSpjCompileCall o v cc (some s) tcid st).2.events = st.events ++ tl
      ∧ tl.all (fun e => !(isMkdir e)) = true ∧ tl.any isSpjInvoke = true
  rw [judgeSpjCompileCall_state]
  exact compile_spj_events o v s cc tcid st

theorem initEnvExit_fs_gone (o : Oracle) (p : String) (st : St) (hrm : o.rmtreeOk = true) :
    pathExists (initEnvExit o false p st).2.fs p = false := by
  unfold initEnvExit
  simp [hrm, pathExists_removeTree_self]

theorem judgeWithExit_ws_gone (o : Oracle) (cc : Option CompileConfig) (rc : RunConfig)
    (src d : String) (st2 : St) (hrm : o.rmtreeOk = true) :
    pathExists (judgeWithExit o false cc rc src d st2).2.fs d = false := by
  unfold judgeWithExit
  dsimp only
  rcases hb : judgeBody o cc rc src d st2 with ⟨r3, st3⟩
  dsimp only
  rcases hx : initEnvExit o false d st3 with ⟨rx, st4⟩
  have hg := initEnvExit_fs_gone o d st3 hrm
  rw [hx] at hg
  cases rx with
  | error e => exact hg
  | ok u => exact hg

theorem judgeRest_ws_gone (o : Oracle) (cc : Option CompileConfig) (rc : RunConfig)
    (src wsp : String) (st : St)
    (hco : o.chownOk = true) (hcm : o.chmodOk = true)
    (hrm : o.rmtreeOk = true) (hfresh : pathExists st.fs wsp = false) :
    pathExists (judgeRest o false cc rc src wsp st).2.fs wsp = false := by
  unfold judgeRest initEnvEnter
  split
  · exact hfresh
  · split
    · next h2 =>
        rw [hco] at h2
        simp at h2
    · split
      · next h3 =>
          rw [hcm] at h3
          simp at h3
      · exact judgeWithExit_ws_gone o cc rc src wsp _ hrm

/-! ### Claim theorems -/

/-- A concrete compiled-language config for concrete scenarios. -/
def lc0 : LanguageConfig :=
  { compile := some { src_name := "main.c", exe_name := "main" }, run := { exe_name := "main" } }

/-- C2: for every `judge` call outside debug mode — successful or failed, over
all compile and execution outcomes — the workspace directory acquired for the
submission does not exist after the call returns: release is performed on every
exit path of the workspace scope, including paths where the compile or
execution step raised.  The oracle hypotheses say that the OS lets the
acquisition steps and the recursive delete succeed, and the freshness
hypothesis is the uuid-uniqueness invariant (the directory does not pre-exist). -/
theorem judge_workspace_removed (o : Oracle) (lc : LanguageConfig) (src : String)
    (mct mm : Nat) (tcid : String) (sv : Option String) (sc : Option SpjConfig)
    (scc : Option SpjCompileConfig) (ssrc : Option String) (out : Bool) (st : St)
    (hmk : o.mkdirOk = true) (hco : o.chownOk = true) (hcm : o.chmodOk = true)
    (hrm : o.rmtreeOk = true)
    (hfresh : pathExists st.fs (pathJoin JUDGER_WORKSPACE_BASE o.freshId) = false) :
    pathExists (judge o false lc src mct mm tcid sv sc scc ssrc out st).2.fs
      (pathJoin JUDGER_WORKSPACE_BASE o.freshId) = false := by
  show pathExists (bindStep (judgeSpjStep o sv sc scc ssrc tcid st)
      (fun x st1 => judgeRest o false lc.compile lc.run src
        (pathJoin JUDGER_WORKSPACE_BASE o.freshId) st1)).2.fs
    (pathJoin JUDGER_WORKSPACE_BASE o.freshId) = false
  rcases hs : judgeSpjStep o sv sc scc ssrc tcid st with ⟨r1, st1⟩
  have hst1 : pathExists st1.fs (pathJoin JUDGER_WORKSPACE_BASE o.freshId) = false := by
    by_cases hx : pathExists st1.fs (pathJoin JUDGER_WORKSPACE_BASE o.freshId) = true
    · rcases judgeSpjStep_pathExists o sv sc scc ssrc tcid st _ (by rw [hs]; exact hx)
        with h1 | ⟨x, h2⟩ | ⟨x, h3⟩
      · rw [hfresh] at h1
        exact absurd h1 Bool.false_ne_true
      · exact absurd h2 (ws_ne_spj_src_join o.freshId x)
      · exact absurd h3 (ws_ne_spj_exe_join o.freshId x)
    · simp only [Bool.not_eq_true] at hx
      exact hx
  cases r1 with
  | error e => exact hst1
  | ok u => exact judgeRest_ws_gone o lc.compile lc.run src _ st1 hco hcm hrm hst1

/-- Witness for C2 at a concrete input: a compiled-language judge call on the
empty filesystem leaves no workspace directory behind. -/
theorem judge_workspace_removed_witness :
    pathExists (judge oracle0 false lc0 "int main()" 1000 65536 "1"
        none none none none false st0).2.fs
      (pathJoin JUDGER_WORKSPACE_BASE oracle0.freshId) = false :=
  judge_workspace_removed oracle0 lc0 "int main()" 1000 65536 "1"
    none none none none false st0 rfl rfl rfl rfl rfl

/-- C3: a request to a recognized operation (`judge`, `ping`, `compile_spj`)
whose token header differs from the configured shared secret (including an
absent header) yields exactly the envelope
`\x7berr: "TokenVerificationFailed", data: "invalid token"\x7d`, and the state is
returned unchanged: no handler runs, no workspace or cache mutation happens. -/
theorem server_invalid_token_envelope (o : Oracle) (debug : Bool) (tokenCfg : String)
    (pth : String) (tok : Option String) (body : Option Params) (st : St)
    (hrec : pth = "judge" ∨ pth = "ping" ∨ pth = "compile_spj")
    (htok : tok ≠ some tokenCfg) :
    server o debug tokenCfg { path := pth, tokenHeader := tok, body := body } st
      = ({ err := some "TokenVerificationFailed", data := .str "invalid token" }, st) := by
  unfold server
  rw [if_pos hrec, if_pos htok]
  rfl

/-- Witness for C3: a `judge` request with no token header against secret
`"SECRET"` gets the token-failure envelope and leaves the world untouched. -/
theorem server_invalid_token_envelope_witness :
    server oracle0 false "SECRET" { path := "judge", tokenHeader := none, body := none } st0
      = ({ err := some "TokenVerificationFailed", data := .str "invalid token" }, st0) :=
  server_invalid_token_envelope oracle0 false "SECRET" "judge" none none st0
    (Or.inl rfl) (by simp)

/-- C9: a recognized request whose body is malformed or absent (the decoded
body is `none`) is treated as the empty parameter set: the worker returns a
well-formed envelope rather than crashing; for `judge` and `compile_spj` the
missing required parameters surface as the downstream `TypeError` wrapped in
the generic error envelope, and for `ping` (no required parameters) the call
succeeds; in all three cases the state is unchanged. -/
theorem server_malformed_body_envelopes (o : Oracle) (debug : Bool) (tokenCfg : String)
    (st : St) :
    server o debug tokenCfg { path := "judge", tokenHeader := some tokenCfg, body := none } st
      = ({ err := some "JudgeClientError",
           data := .str ("TypeError :" ++ judgeMissingArgsMsg) }, st)
    ∧ server o debug tokenCfg
        { path := "compile_spj", tokenHeader := some tokenCfg, body := none } st
      = ({ err := some "JudgeClientError",
           data := .str ("TypeError :" ++ compileSpjMissingArgsMsg) }, st)
    ∧ server o debug tokenCfg { path := "ping", tokenHeader := some tokenCfg, body := none } st
      = ({ err := none, data := .pong }, st) := by
  refine ⟨?_, ?_, ?_⟩ <;>
    simp [server, callHandler, emptyParams, envelopeOfErr, judgeMissingArgsMsg,
      compileSpjMissingArgsMsg]

theorem bindStep_ok {α β : Type} (a : α) (st : St) (f : α → St → Except PyErr β × St) :
    bindStep (.ok a, st) f = f a st := rfl

theorem bindStep_error {α β : Type} (e : PyErr) (st : St) (f : α → St → Except PyErr β × St) :
    bindStep ((.error e : Except PyErr α), st) f = (.error e, st) := rfl

/-- Shared helper: the final contents of the `spj_compile_config` dictionary
after any `compile_spj` call are the template-substituted names. -/
theorem compile_spj_cfg (o : Oracle) (v : String) (src : Option String)
    (cfg : SpjCompileConfig) (tcid : String) (st : St) :
    (compile_spj o v src cfg tcid st).2.1
      = { src_name := formatName cfg.src_name v tcid,
          exe_name := formatName cfg.exe_name v tcid } := by
  unfold compile_spj compile_spjCompilePart compilerCompile
  dsimp only
  by_cases hsrc :
      pathExists st.fs (pathJoin SPJ_SRC_DIR (formatName cfg.src_name v tcid)) = true
  · rw [if_pos hsrc]
    cases o.spjCompile <;> rfl
  · rw [if_neg hsrc]
    cases src with
    | none => rfl
    | some s => cases o.spjCompile <;> rfl

/-- C1 counterexample: with the checker executable already cached after a first
`compile_spj` call, a second call with the identical key
`(spj_version, test_case_id, src, spj_compile_config)` invokes the compiler
again — two invocations in total, not one — and returns the string
`"success"`, not the executable's path. -/
theorem compile_spj_second_call_recompiles :
    isFile (compile_spj oracle0 "2" (some "int main") cfg0 "9" st0).2.2.fs
        (pathJoin SPJ_EXE_DIR (formatName cfg0.exe_name "2" "9")) = true
    ∧ countCompilesTo SPJ_EXE_DIR
        (compile_spj oracle0 "2" (some "int main") cfg0 "9"
          (compile_spj oracle0 "2" (some "int main") cfg0 "9" st0).2.2).2.2.events = 2
    ∧ (compile_spj oracle0 "2" (some "int main") cfg0 "9"
        (compile_spj oracle0 "2" (some "int main") cfg0 "9" st0).2.2).1 = .ok "success"
    ∧ (Except.ok "success" : Except PyErr String)
        ≠ .ok (pathJoin SPJ_EXE_DIR (formatName cfg0.exe_name "2" "9")) := by
  decide

/-- C1 (amended): `compile_spj` performs no executable-presence memoization.
Whenever the resolved source file is already in the cache store (as it is on
any repeat call with an identical key), the call skips the source write but
still invokes the compiler exactly once more, and a successful call returns
the string `"success"`; the executable-presence check that yields one
compilation in total lives in `judge`, which skips calling `compile_spj` when
the resolved executable exists (see the C4 theorem). -/
theorem compile_spj_always_invokes_compiler (o : Oracle) (v : String) (src : Option String)
    (cfg : SpjCompileConfig) (tcid : String) (st : St)
    (hsrc : pathExists st.fs (pathJoin SPJ_SRC_DIR (formatName cfg.src_name v tcid)) = true) :
    countCompilesTo SPJ_EXE_DIR (compile_spj o v src cfg tcid st).2.2.events
      = countCompilesTo SPJ_EXE_DIR st.events + 1
    ∧ (o.spjCompile = .ok () → (compile_spj o v src cfg tcid st).1 = .ok "success") := by
  unfold compile_spj compile_spjCompilePart compilerCompile
  rw [if_pos hsrc]
  cases hoc : o.spjCompile with
  | ok u =>
    constructor
    · simp [countCompilesTo, List.countP_append, List.countP_cons, isInvokeTo]
    · intro h
      rfl
  | error m =>
    constructor
    · simp [countCompilesTo, List.countP_append, List.countP_cons, isInvokeTo]
    · intro h
      exact absurd h (by simp)

/-- Witness for the C1 amended theorem: on the state left by a first call, the
second call with the identical key adds one more compiler invocation and
returns `"success"`. -/
theorem compile_spj_always_invokes_compiler_witness :
    countCompilesTo SPJ_EXE_DIR
        (compile_spj oracle0 "2" (some "int main") cfg0 "9"
          (compile_spj oracle0 "2" (some "int main") cfg0 "9" st0).2.2).2.2.events
      = countCompilesTo SPJ_EXE_DIR
          (compile_spj oracle0 "2" (some "int main") cfg0 "9" st0).2.2.events + 1
    ∧ (compile_spj oracle0 "2" (some "int main") cfg0 "9"
        (compile_spj oracle0 "2" (some "int main") cfg0 "9" st0).2.2).1 = .ok "success" :=
  ⟨(compile_spj_always_invokes_compiler oracle0 "2" (some "int main") cfg0 "9"
      (compile_spj oracle0 "2" (some "int main") cfg0 "9" st0).2.2 (by decide)).1,
   (compile_spj_always_invokes_compiler oracle0 "2" (some "int main") cfg0 "9"
      (compile_spj oracle0 "2" (some "int main") cfg0 "9" st0).2.2 (by decide)).2 rfl⟩

/-- C8 counterexample: a successful `compile_spj` call compiles the checker —
the executable is present in the cache store afterwards — yet the returned
value is `.ok "success"`, which is not the executable's path. -/
theorem compile_spj_returns_success_cex :
    (compile_spj oracle0 "2" (some "int main") cfg0 "9" st0).1 = .ok "success"
    ∧ isFile (compile_spj oracle0 "2" (some "int main") cfg0 "9" st0).2.2.fs
        (pathJoin SPJ_EXE_DIR (formatName cfg0.exe_name "2" "9")) = true
    ∧ "success" ≠ pathJoin SPJ_EXE_DIR (formatName cfg0.exe_name "2" "9") := by
  decide

/-- C8 (amended): every successful `compile_spj` call returns the constant
string `"success"` — never the compiled executable's path ( `judge` recomputes
that path from the template instead of using the return value). -/
theorem compile_spj_returns_success_string (o : Oracle) (v : String) (src : Option String)
    (cfg : SpjCompileConfig) (tcid : String) (st : St) (s : String)
    (h : (compile_spj o v src cfg tcid st).1 = .ok s) : s = "success" := by
  have hpart : ∀ cfg2 sp stx, (compile_spjCompilePart o cfg2 sp stx).1 = .ok s →
      s = "success" := by
    intro cfg2 sp stx hp
    unfold compile_spjCompilePart compilerCompile at hp
    cases hoc : o.spjCompile with
    | ok u =>
      rw [hoc] at hp
      simp at hp
      exact hp.symm
    | error m =>
      rw [hoc] at hp
      exact absurd hp (by simp)
  unfold compile_spj at h
  by_cases hsrc :
      pathExists st.fs (pathJoin SPJ_SRC_DIR (formatName cfg.src_name v tcid)) = true
  · rw [if_pos hsrc] at h
    exact hpart _ _ _ h
  · rw [if_neg hsrc] at h
    cases src with
    | none => exact absurd h (by simp)
    | some s2 => exact hpart _ _ _ h

/-- Witness for the C8 amended theorem at a concrete successful call. -/
theorem compile_spj_returns_success_string_witness :
    "success" = "success" :=
  compile_spj_returns_success_string oracle0 "2" (some "int main") cfg0 "9" st0 "success"
    (by decide)

/-- C10: `compile_spj` overwrites the `src_name` and `exe_name` entries of its
`spj_compile_config` dictionary with their template-substituted values (the
returned configuration is the dictionary's contents after the call), so the
caller's object is not left unchanged — at a concrete templated config the
result differs from the input — and a call sharing the dictionary a second
time formats the already-formatted names again. -/
theorem compile_spj_config_mutation (o : Oracle) (v : String) (src : Option String)
    (cfg : SpjCompileConfig) (tcid : String) (st st2 : St) :
    (compile_spj o v src cfg tcid st).2.1
      = { src_name := formatName cfg.src_name v tcid,
          exe_name := formatName cfg.exe_name v tcid }
    ∧ (compile_spj o v src ((compile_spj o v src cfg tcid st).2.1) tcid st2).2.1
      = { src_name := formatName (formatName cfg.src_name v tcid) v tcid,
          exe_name := formatName (formatName cfg.exe_name v tcid) v tcid }
    ∧ (compile_spj oracle0 "3" (some "x") cfg0 "7" st0).2.1 ≠ cfg0 := by
  refine ⟨compile_spj_cfg o v src cfg tcid st, ?_, by decide⟩
  rw [compile_spj_cfg o v src cfg tcid st]
  exact compile_spj_cfg o v src _ tcid st2

/-- Shared helper: under successful OS calls and a fresh path, `__enter__`
returns the path and the created directory entry has mode `0o771`, owner root
and the compiler group. -/
theorem initEnvEnter_success_eq (o : Oracle) (st : St) (p : String)
    (hmk : o.mkdirOk = true) (hco : o.chownOk = true) (hcm : o.chmodOk = true)
    (hfresh : pathExists st.fs p = false) :
    initEnvEnter o p st
      = (.ok p,
         { st with
             fs := chmodFs (chownFs (setEntry st.fs p (FileEntry.mk 0o777 0 0 true))
               p 0 COMPILER_GROUP_GID) p 0o771,
             events := st.events ++ [Ev.mkdir p] }) := by
  unfold initEnvEnter
  rw [hmk, hco, hcm, hfresh]
  rfl

/-- Shared helper: the directory entry after a successful `__enter__`. -/
theorem initEnvEnter_success_entry (o : Oracle) (st : St) (p : String)
    (hmk : o.mkdirOk = true) (hco : o.chownOk = true) (hcm : o.chmodOk = true)
    (hfresh : pathExists st.fs p = false) :
    lookupFs (initEnvEnter o p st).2.fs p
      = some { mode := 0o771, owner := 0, group := COMPILER_GROUP_GID, isDir := true } := by
  rw [initEnvEnter_success_eq o st p hmk hco hcm hfresh]
  show lookupFs (chmodFs (chownFs (setEntry st.fs p (FileEntry.mk 0o777 0 0 true))
    p 0 COMPILER_GROUP_GID) p 0o771) p = _
  rw [lookupFs_chmodFs_self, lookupFs_chownFs_self, lookupFs_setEntry]
  simp

/-- The oracle of a run in which `os.chown` on the fresh workspace fails. -/
def oracleChownFail : Oracle := { oracle0 with chownOk := false }

/-- C5 counterexample: when `os.mkdir` succeeds but `os.chown` fails, the
acquisition reports the workspace-setup error, yet the created directory is
left behind — the operation neither fully succeeded nor left no directory. -/
theorem initEnvEnter_leftover_dir_cex :
    (initEnvEnter oracleChownFail (pathJoin JUDGER_WORKSPACE_BASE "sub1") st0).1
      = .error (.JudgeClientError "failed to create runtime dir")
    ∧ pathExists (initEnvEnter oracleChownFail (pathJoin JUDGER_WORKSPACE_BASE "sub1") st0).2.fs
        (pathJoin JUDGER_WORKSPACE_BASE "sub1") = true := by
  decide

/-- C5 (amended): every failure during workspace acquisition — at creation,
ownership, or mode setting — is reported as the single distinguishable error
`JudgeClientError "failed to create runtime dir"` (the only other outcome is
full success returning the path with final ownership and mode); however, the
operation is not atomic: whenever `os.mkdir` succeeded, the directory exists
afterwards even if a later ownership or mode step failed, so a partial state
can be left behind. -/
theorem initEnvEnter_single_error_kind (o : Oracle) (st : St) (p : String) :
    ((initEnvEnter o p st).1 = .ok p
      ∨ (initEnvEnter o p st).1 = .error (.JudgeClientError "failed to create runtime dir"))
    ∧ (o.mkdirOk = true → pathExists st.fs p = false →
        pathExists (initEnvEnter o p st).2.fs p = true)
    ∧ (o.mkdirOk = true → o.chownOk = true → o.chmodOk = true →
        pathExists st.fs p = false →
        (initEnvEnter o p st).1 = .ok p
        ∧ lookupFs (initEnvEnter o p st).2.fs p
            = some { mode := 0o771, owner := 0, group := COMPILER_GROUP_GID, isDir := true }) := by
  refine ⟨?_, ?_, ?_⟩
  · unfold initEnvEnter
    by_cases h1 : (!o.mkdirOk || pathExists st.fs p) = true
    · rw [if_pos h1]
      exact Or.inr rfl
    · rw [if_neg h1]
      by_cases h2 : (!o.chownOk) = true
      · rw [if_pos h2]
        exact Or.inr rfl
      · rw [if_neg h2]
        by_cases h3 : (!o.chmodOk) = true
        · rw [if_pos h3]
          exact Or.inr rfl
        · rw [if_neg h3]
          exact Or.inl rfl
  · intro hmk hfresh
    unfold initEnvEnter
    rw [hmk, hfresh]
    show pathExists (if false = true then _ else _ : Except PyErr String × St).2.fs p = true
    rw [if_neg (by exact Bool.false_ne_true)]
    by_cases h2 : (!o.chownOk) = true
    · rw [if_pos h2]
      exact (pathExists_setEntry st.fs p p (FileEntry.mk 0o777 0 0 true)).mpr (Or.inl rfl)
    · rw [if_neg h2]
      by_cases h3 : (!o.chmodOk) = true
      · rw [if_pos h3]
        rw [pathExists_chownFs]
        exact (pathExists_setEntry st.fs p p (FileEntry.mk 0o777 0 0 true)).mpr (Or.inl rfl)
      · rw [if_neg h3]
        rw [pathExists_chmodFs, pathExists_chownFs]
        exact (pathExists_setEntry st.fs p p (FileEntry.mk 0o777 0 0 true)).mpr (Or.inl rfl)
  · intro hmk hco hcm hfresh
    refine ⟨?_, initEnvEnter_success_entry o st p hmk hco hcm hfresh⟩
    rw [initEnvEnter_success_eq o st p hmk hco hcm hfresh]

/-- Witness for the C5 amended theorem: on a chown-failing run the single error
kind is reported and the directory is left behind; on an all-success run the
acquisition succeeds with the final entry. -/
theorem initEnvEnter_single_error_kind_witness :
    ((initEnvEnter oracleChownFail (pathJoin JUDGER_WORKSPACE_BASE "sub1") st0).1
        = .ok (pathJoin JUDGER_WORKSPACE_BASE "sub1")
      ∨ (initEnvEnter oracleChownFail (pathJoin JUDGER_WORKSPACE_BASE "sub1") st0).1
        = .error (.JudgeClientError "failed to create runtime dir"))
    ∧ pathExists (initEnvEnter oracleChownFail (pathJoin JUDGER_WORKSPACE_BASE "sub1") st0).2.fs
        (pathJoin JUDGER_WORKSPACE_BASE "sub1") = true
    ∧ ((initEnvEnter oracle0 (pathJoin JUDGER_WORKSPACE_BASE "sub1") st0).1
        = .ok (pathJoin JUDGER_WORKSPACE_BASE "sub1")
      ∧ lookupFs (initEnvEnter oracle0 (pathJoin JUDGER_WORKSPACE_BASE "sub1") st0).2.fs
          (pathJoin JUDGER_WORKSPACE_BASE "sub1")
        = some { mode := 0o771, owner := 0, group := COMPILER_GROUP_GID, isDir := true }) :=
  ⟨(initEnvEnter_single_error_kind oracleChownFail st0
      (pathJoin JUDGER_WORKSPACE_BASE "sub1")).1,
   (initEnvEnter_single_error_kind oracleChownFail st0
      (pathJoin JUDGER_WORKSPACE_BASE "sub1")).2.1 rfl rfl,
   (initEnvEnter_single_error_kind oracle0 st0
      (pathJoin JUDGER_WORKSPACE_BASE "sub1")).2.2 rfl rfl rfl rfl⟩

/-- Shared helper: after a successful checker compilation the cached executable
entry carries mode `0o771`. -/
theorem compile_spj_exe_entry (o : Oracle) (v s : String) (cfg : SpjCompileConfig)
    (tcid : String) (st : St) (hok : o.spjCompile = .ok ()) :
    (lookupFs (compile_spj o v (some s) cfg tcid st).2.2.fs
        (pathJoin SPJ_EXE_DIR (formatName cfg.exe_name v tcid))).map FileEntry.mode
      = some 0o771 := by
  unfold compile_spj compile_spjCompilePart compilerCompile
  rw [hok]
  by_cases hsrc :
      pathExists st.fs (pathJoin SPJ_SRC_DIR (formatName cfg.src_name v tcid)) = true
  · rw [if_pos hsrc]
    show (lookupFs (chmodFs (setEntry _ _ _) _ 0o771) _).map FileEntry.mode = some 0o771
    rw [lookupFs_chmodFs_self, lookupFs_setEntry]
    simp
  · rw [if_neg hsrc]
    show (lookupFs (chmodFs (setEntry _ _ _) _ 0o771) _).map FileEntry.mode = some 0o771
    rw [lookupFs_chmodFs_self, lookupFs_setEntry]
    simp

/-- C6 counterexample: the workspace directory created by a successful
acquisition has mode `0o771`, whose lowest octal digit is not zero — others do
hold a permission bit (execute/traverse), contradicting "no read, write, or
execute permission for others". -/
theorem workspace_mode_cex :
    (lookupFs (initEnvEnter oracle0 (pathJoin JUDGER_WORKSPACE_BASE "sub1") st0).2.fs
        (pathJoin JUDGER_WORKSPACE_BASE "sub1")).map FileEntry.mode = some 0o771
    ∧ 0o771 % 8 ≠ 0 := by
  decide

/-- C6 (amended): every successfully acquired workspace directory and every
successfully compiled cached checker executable carries mode `0o771`: full
access for owner and group, and for others exactly the execute/traverse bit —
no read or write permission for others (the others digit is `1`). -/
theorem workspace_and_spj_exe_mode (o : Oracle) (st : St) (p : String)
    (v s tcid : String) (cfg : SpjCompileConfig) (st2 : St)
    (hmk : o.mkdirOk = true) (hco : o.chownOk = true) (hcm : o.chmodOk = true)
    (hfresh : pathExists st.fs p = false) (hok : o.spjCompile = .ok ()) :
    (lookupFs (initEnvEnter o p st).2.fs p).map FileEntry.mode = some 0o771
    ∧ (lookupFs (compile_spj o v (some s) cfg tcid st2).2.2.fs
        (pathJoin SPJ_EXE_DIR (formatName cfg.exe_name v tcid))).map FileEntry.mode
      = some 0o771
    ∧ 0o771 % 8 = 1 := by
  refine ⟨?_, compile_spj_exe_entry o v s cfg tcid st2 hok, by decide⟩
  rw [initEnvEnter_success_entry o st p hmk hco hcm hfresh]
  rfl

/-- Witness for the C6 amended theorem at concrete inputs. -/
theorem workspace_and_spj_exe_mode_witness :
    (lookupFs (initEnvEnter oracle0 (pathJoin JUDGER_WORKSPACE_BASE "sub1") st0).2.fs
        (pathJoin JUDGER_WORKSPACE_BASE "sub1")).map FileEntry.mode = some 0o771
    ∧ (lookupFs (compile_spj oracle0 "2" (some "int main") cfg0 "9" st0).2.2.fs
        (pathJoin SPJ_EXE_DIR (formatName cfg0.exe_name "2" "9"))).map FileEntry.mode
      = some 0o771
    ∧ 0o771 % 8 = 1 :=
  workspace_and_spj_exe_mode oracle0 st0 (pathJoin JUDGER_WORKSPACE_BASE "sub1")
    "2" "int main" "9" cfg0 st0 rfl rfl rfl rfl rfl

/-- Shared helper: when the Compiler collaborator fails on the submission
source, the workspace body raises exactly `CompileError msg`. -/
theorem judgeBody_compile_error (o : Oracle) (msg : String) (cc : CompileConfig)
    (rc : RunConfig) (src d : String) (st : St)
    (hsub : o.submissionCompile = .error msg) :
    (judgeBody o (some cc) rc src d st).1 = .error (.CompileError msg) := by
  unfold judgeBody compilerCompile
  rw [hsub]
  rfl

/-- Shared helper: with a successful cleanup outside debug mode, the `with`
statement returns the body's own outcome. -/
theorem judgeWithExit_result (o : Oracle) (cc : Option CompileConfig) (rc : RunConfig)
    (src d : String) (st2 : St) (hrm : o.rmtreeOk = true) :
    (judgeWithExit o false cc rc src d st2).1 = (judgeBody o cc rc src d st2).1 := by
  unfold judgeWithExit
  dsimp only
  rcases hb : judgeBody o cc rc src d st2 with ⟨r3, st3⟩
  dsimp only
  unfold initEnvExit
  rw [hrm]
  rfl

/-- C7: a Compiler failure raised while compiling a checker through
`compile_spj` leaves the call re-tagged as `SPJCompileError` with the same
diagnostic message; an ordinary submission compile failure inside `judge`
propagates out unchanged as `CompileError` with its message; and the response
envelopes of the two kinds name different error kinds — they are never coerced
into one another. -/
theorem compile_error_kinds_distinct (o o2 : Oracle) (msg : String)
    (v s : String) (cfg : SpjCompileConfig) (tcid : String) (st : St)
    (lc : LanguageConfig) (src2 : String) (mct mm : Nat) (tcid2 : String) (st2 : St)
    (ccfg : CompileConfig)
    (hspj : o.spjCompile = .error msg)
    (hsub : o2.submissionCompile = .error msg)
    (hmk : o2.mkdirOk = true) (hco : o2.chownOk = true) (hcm : o2.chmodOk = true)
    (hrm : o2.rmtreeOk = true)
    (hlc : lc.compile = some ccfg)
    (hfresh : pathExists st2.fs (pathJoin JUDGER_WORKSPACE_BASE o2.freshId) = false) :
    (compile_spj o v (some s) cfg tcid st).1 = .error (.SPJCompileError msg)
    ∧ (judge o2 false lc src2 mct mm tcid2 none none none none false st2).1
        = .error (.CompileError msg)
    ∧ envelopeOfErr (.SPJCompileError msg)
        = { err := some "SPJCompileError", data := .str msg }
    ∧ envelopeOfErr (.CompileError msg) = { err := some "CompileError", data := .str msg }
    ∧ (some "SPJCompileError" : Option String) ≠ some "CompileError" := by
  refine ⟨?_, ?_, rfl, rfl, by decide⟩
  · unfold compile_spj compile_spjCompilePart compilerCompile
    rw [hspj]
    by_cases hsrc :
        pathExists st.fs (pathJoin SPJ_SRC_DIR (formatName cfg.src_name v tcid)) = true
    · rw [if_pos hsrc]
    · rw [if_neg hsrc]
  · show (bindStep (judgeSpjStep o2 none none none none tcid2 st2)
        (fun x st1 => judgeRest o2 false lc.compile lc.run src2
          (pathJoin JUDGER_WORKSPACE_BASE o2.freshId) st1)).1
      = .error (.CompileError msg)
    rw [show judgeSpjStep o2 none none none none tcid2 st2 = (.ok (), st2) from rfl,
      bindStep_ok]
    unfold judgeRest
    rw [initEnvEnter_success_eq o2 st2 (pathJoin JUDGER_WORKSPACE_BASE o2.freshId)
      hmk hco hcm hfresh, bindStep_ok]
    rw [judgeWithExit_result o2 lc.compile lc.run src2
      (pathJoin JUDGER_WORKSPACE_BASE o2.freshId) _ hrm]
    rw [hlc]
    exact judgeBody_compile_error o2 msg ccfg lc.run src2
      (pathJoin JUDGER_WORKSPACE_BASE o2.freshId) _ hsub

/-- The oracle of a run in which every Compiler invocation fails with the
diagnostic `"type error at line 1"`. -/
def oracleCompileFail : Oracle :=
  { oracle0 with spjCompile := .error "type error at line 1",
                 submissionCompile := .error "type error at line 1" }

/-- Witness for C7 at concrete inputs. -/
theorem compile_error_kinds_distinct_witness :
    (compile_spj oracleCompileFail "2" (some "int main") cfg0 "9" st0).1
      = .error (.SPJCompileError "type error at line 1")
    ∧ (judge oracleCompileFail false lc0 "bad source" 1000 65536 "1"
        none none none none false st0).1
      = .error (.CompileError "type error at line 1")
    ∧ envelopeOfErr (.SPJCompileError "type error at line 1")
        = { err := some "SPJCompileError", data := .str "type error at line 1" }
    ∧ envelopeOfErr (.CompileError "type error at line 1")
        = { err := some "CompileError", data := .str "type error at line 1" }
    ∧ (some "SPJCompileError" : Option String) ≠ some "CompileError" :=
  compile_error_kinds_distinct oracleCompileFail oracleCompileFail "type error at line 1"
    "2" "int main" cfg0 "9" st0 lc0 "bad source" 1000 65536 "1" st0
    { src_name := "main.c", exe_name := "main" }
    rfl rfl rfl rfl rfl rfl rfl rfl

/-- C4: when a `judge` call supplies both a special-judge version (nonempty, so
truthy) and a special-judge config, the orchestrator resolves the expected
checker executable path `SPJ_EXE_DIR/spj_config.exe_name.format(...)`; starting
from an empty trace, if no file is at that path then a checker compilation
(a Compiler invocation into the cache store, performed by `compile_spj`) occurs
strictly before any workspace directory creation, and if a file is present then
the whole call performs no checker compilation at all. -/
theorem judge_spj_precompile (o : Oracle) (debug : Bool) (lc : LanguageConfig)
    (src : String) (mct mm : Nat) (tcid : String) (v : String) (sc : SpjConfig)
    (cc : SpjCompileConfig) (s : String) (out : Bool) (st : St)
    (hv : ¬ v = "") (hev : st.events = []) :
    (isFile st.fs (pathJoin SPJ_EXE_DIR (formatName sc.exe_name v tcid)) = false →
      (((judge o debug lc src mct mm tcid (some v) (some sc) (some cc) (some s)
          out st).2.events.takeWhile (fun e => !(isMkdir e))).any isSpjInvoke) = true)
    ∧ (isFile st.fs (pathJoin SPJ_EXE_DIR (formatName sc.exe_name v tcid)) = true →
      countCompilesTo SPJ_EXE_DIR
        (judge o debug lc src mct mm tcid (some v) (some sc) (some cc) (some s)
          out st).2.events = 0) := by
  have hne : ((pathJoin JUDGER_WORKSPACE_BASE o.freshId : String) == SPJ_EXE_DIR) = false :=
    beq_eq_false_iff_ne.mpr (ws_ne_SPJ_EXE_DIR o.freshId)
  constructor
  · intro hfile
    show (((bindStep (judgeSpjStep o (some v) (some sc) (some cc) (some s) tcid st)
        (fun x st1 => judgeRest o debug lc.compile lc.run src
          (pathJoin JUDGER_WORKSPACE_BASE o.freshId) st1)).2.events.takeWhile
        (fun e => !(isMkdir e))).any isSpjInvoke) = true
    have habs := judgeSpjStep_events_absent o v sc cc s tcid st hv hfile
    rcases hs : judgeSpjStep o (some v) (some sc) (some cc) (some s) tcid st with ⟨r1, st1⟩
    rw [hs] at habs
    obtain ⟨tl0, htl0, hall0, hany0⟩ := habs
    rw [hev, List.nil_append] at htl0
    cases r1 with
    | error e =>
      show ((st1.events.takeWhile (fun e => !(isMkdir e))).any isSpjInvoke) = true
      rw [htl0]
      have := any_takeWhile_append (fun e => !(isMkdir e)) isSpjInvoke tl0 [] hall0 hany0
      rw [List.append_nil] at this
      exact this
    | ok u =>
      show (((judgeRest o debug lc.compile lc.run src
          (pathJoin JUDGER_WORKSPACE_BASE o.freshId) st1).2.events.takeWhile
          (fun e => !(isMkdir e))).any isSpjInvoke) = true
      obtain ⟨tl, htl, halltl⟩ := judgeRest_nonspj o debug lc.compile lc.run src
        (pathJoin JUDGER_WORKSPACE_BASE o.freshId) st1 hne
      rw [htl, htl0]
      exact any_takeWhile_append (fun e => !(isMkdir e)) isSpjInvoke tl0 tl hall0 hany0
  · intro hfile
    show countCompilesTo SPJ_EXE_DIR
        ((bindStep (judgeSpjStep o (some v) (some sc) (some cc) (some s) tcid st)
          (fun x st1 => judgeRest o debug lc.compile lc.run src
            (pathJoin JUDGER_WORKSPACE_BASE o.freshId) st1)).2.events) = 0
    rw [judgeSpjStep_file_present o v sc (some cc) (some s) tcid st hv hfile, bindStep_ok]
    have hext := judgeRest_nonspj o debug lc.compile lc.run src
      (pathJoin JUDGER_WORKSPACE_BASE o.freshId) st hne
    rw [countCompilesTo_of_extendsNonSpj hext, hev]
    rfl

/-- A state whose cache store already holds the checker executable for version
`"2"` and test case `"9"` (and nothing else). -/
def stSpjPresent : St :=
  { fs := [(pathJoin SPJ_EXE_DIR "spj-2", FileEntry.mk 0o771 0 0 false)], events := [] }

/-- Witness for C4: with the executable absent a checker compilation precedes
workspace creation; with it present no checker compilation happens. -/
theorem judge_spj_precompile_witness :
    (((judge oracle0 false lc0 "srctext" 1000 65536 "9" (some "2")
        (some { exe_name := "spj-\x7bspj_version\x7d" }) (some cfg0) (some "checker")
        false st0).2.events.takeWhile (fun e => !(isMkdir e))).any isSpjInvoke) = true
    ∧ countCompilesTo SPJ_EXE_DIR
        (judge oracle0 false lc0 "srctext" 1000 65536 "9" (some "2")
          (some { exe_name := "spj-\x7bspj_version\x7d" }) (some cfg0) (some "checker")
          false stSpjPresent).2.events = 0 :=
  ⟨(judge_spj_precompile oracle0 false lc0 "srctext" 1000 65536 "9" "2"
      { exe_name := "spj-\x7bspj_version\x7d" } cfg0 "checker" false st0
      (by decide) rfl).1 (by decide),
   (judge_spj_precompile oracle0 false lc0 "srctext" 1000 65536 "9" "2"
      { exe_name := "spj-\x7bspj_version\x7d" } cfg0 "checker" false stSpjPresent
      (by decide) rfl).2 (by decide)⟩
